import Mathlib

/-!
A shallow embedding of the SQL-safety validation, configuration/history
storage, connection abstraction and route-handling layer of the Smart-Query
server, together with proofs of the behavioural properties stated in its
specification.

Conventions of the embedding:
* JavaScript strings that are processed character by character (uppercasing,
  trimming, substring search in the safety validator) are modelled as
  `List Char`; all other strings are Lean `String`s.
* JavaScript `Map`s are modelled as insertion-ordered association lists,
  matching the iteration order of `Map.prototype.values`.
* External input/output (the database driver, the text-generation service,
  the wall clock) is modelled by explicit oracle parameters: the embedding
  of a handler is a pure function of the store state, the request and the
  oracle, returning the new store state, the response and a trace of the
  database-connection events it performed.
-/

/-- The characters removed by the JavaScript `String.prototype.trim`
(the ECMAScript WhiteSpace and LineTerminator classes, restricted to the
common members; the proofs below only need that no character of an SQL
keyword is in this class). -/
def isJsWhitespace (c : Char) : Bool :=
  c = ' ' || c = '\t' || c = '\n' || c = '\r' ||
  c = Char.ofNat 0x0B || c = Char.ofNat 0x0C ||
  c = Char.ofNat 0xA0 || c = Char.ofNat 0xFEFF ||
  c = Char.ofNat 0x2028 || c = Char.ofNat 0x2029

/-- The JavaScript `String.prototype.trim`: drop leading and trailing
whitespace. -/
def jsTrim (l : List Char) : List Char :=
  ((l.dropWhile isJsWhitespace).reverse.dropWhile isJsWhitespace).reverse

/-- The JavaScript `String.prototype.toUpperCase`, modelled per character
(the SQL text handled by the validator is ASCII). -/
def jsToUpperCase (l : List Char) : List Char :=
  l.map Char.toUpper

/-- The denylist `dangerousKeywords` of `validateSQLQuery` in
`server/services/openai.ts`. -/
def dangerousKeywords : List String :=
  ["INSERT", "UPDATE", "DELETE", "DROP", "CREATE", "ALTER",
   "TRUNCATE", "EXEC", "EXECUTE", "SP_", "XP_"]

/-- The function `validateSQLQuery` of `server/services/openai.ts`: uppercase
and trim the input, require the `SELECT` prefix, then reject if any
denylisted keyword occurs as a substring.  The TypeScript function is
`async` and returns a promise of this boolean; the surrounding `try`/`catch`
returning `false` on an internal failure has no counterpart in the total
Lean function. -/
def validateSQLQuery (sql : List Char) : Bool :=
  let upperSQL := jsTrim (jsToUpperCase sql)
  if ¬ ("SELECT".toList.isPrefixOf upperSQL) then
    false
  else if dangerousKeywords.any (fun keyword => decide (keyword.toList <:+: upperSQL)) then
    false
  else
    true

/-- Splitting a list around its trimmed core: the dropped ends consist of
whitespace only. -/
theorem jsTrim_decomp (l : List Char) :
    ∃ w₁ w₂, (∀ c ∈ w₁, isJsWhitespace c = true) ∧ (∀ c ∈ w₂, isJsWhitespace c = true) ∧
      l = w₁ ++ jsTrim l ++ w₂ := by
  refine ⟨l.takeWhile isJsWhitespace,
    ((l.dropWhile isJsWhitespace).reverse.takeWhile isJsWhitespace).reverse, ?_, ?_, ?_⟩
  · intro c hc; exact List.mem_takeWhile_imp hc
  · intro c hc; exact List.mem_takeWhile_imp (List.mem_reverse.mp hc)
  · unfold jsTrim
    conv_lhs => rw [← List.takeWhile_append_dropWhile isJsWhitespace l]
    rw [List.append_assoc]
    congr 1
    calc l.dropWhile isJsWhitespace
        = ((l.dropWhile isJsWhitespace).reverse).reverse := (List.reverse_reverse _).symm
      _ = (List.takeWhile isJsWhitespace (l.dropWhile isJsWhitespace).reverse ++
            List.dropWhile isJsWhitespace (l.dropWhile isJsWhitespace).reverse).reverse := by
            rw [List.takeWhile_append_dropWhile]
      _ = _ := by
            rw [List.reverse_append]

/-- A nonempty whitespace-free infix of `w ++ t` with `w` all whitespace is
already an infix of `t`. -/
theorem infix_of_ws_prepend {k t : List Char} (w : List Char) (hk : k ≠ [])
    (hkws : ∀ c ∈ k, isJsWhitespace c = false)
    (hw : ∀ c ∈ w, isJsWhitespace c = true) :
    k <:+: w ++ t → k <:+: t := by
  induction w with
  | nil => simp
  | cons a w ih =>
    intro h
    rcases List.infix_cons_iff.mp h with hpre | hinf
    · obtain ⟨k₀, ks, rfl⟩ : ∃ k₀ ks, k = k₀ :: ks := by
        cases k with
        | nil => exact absurd rfl hk
        | cons x xs => exact ⟨x, xs, rfl⟩
      obtain ⟨s, hs⟩ := hpre
      have hhead : k₀ = a := by
        have := congrArg (fun l => l.head?) hs
        simpa using this
      have h₁ : isJsWhitespace k₀ = false := hkws k₀ (by simp)
      have h₂ : isJsWhitespace a = true := hw a (by simp)
      rw [hhead] at h₁
      rw [h₁] at h₂
      exact absurd h₂ (by simp)
    · exact ih (fun c hc => hw c (List.mem_cons_of_mem _ hc)) hinf

/-- A nonempty whitespace-free infix of `t ++ w` with `w` all whitespace is
already an infix of `t`. -/
theorem infix_of_ws_append {k t : List Char} (w : List Char) (hk : k ≠ [])
    (hkws : ∀ c ∈ k, isJsWhitespace c = false)
    (hw : ∀ c ∈ w, isJsWhitespace c = true) :
    k <:+: t ++ w → k <:+: t := by
  intro h
  have hrev : k.reverse <:+: w.reverse ++ t.reverse := by
    rw [← List.reverse_append]
    exact List.reverse_infix.mpr h
  have hkr : k.reverse ≠ [] := by
    intro hnil
    exact hk (by simpa using congrArg List.reverse hnil)
  have hres := infix_of_ws_prepend w.reverse hkr
    (fun c hc => hkws c (List.mem_reverse.mp hc))
    (fun c hc => hw c (List.mem_reverse.mp hc)) hrev
  exact List.reverse_infix.mp hres

/-- Occurrence of a nonempty whitespace-free keyword is unaffected by
trimming. -/
theorem infix_jsTrim_iff {k : List Char} (l : List Char) (hk : k ≠ [])
    (hkws : ∀ c ∈ k, isJsWhitespace c = false) :
    k <:+: jsTrim l ↔ k <:+: l := by
  obtain ⟨w₁, w₂, hw₁, hw₂, hdecomp⟩ := jsTrim_decomp l
  constructor
  · intro h
    exact h.trans ⟨w₁, w₂, hdecomp.symm⟩
  · intro h
    rw [hdecomp, List.append_assoc] at h
    exact infix_of_ws_append w₂ hk hkws hw₂
      (infix_of_ws_prepend w₁ hk hkws hw₁ h)

/-- Every entry of the denylist is nonempty and contains no whitespace
character. -/
theorem dangerousKeywords_shape :
    ∀ kw ∈ dangerousKeywords, kw.toList ≠ [] ∧ ∀ c ∈ kw.toList, isJsWhitespace c = false := by
  decide

/-- C3: for every input string, `validateSQLQuery` returns `true` exactly when
the uppercased, trimmed text begins with `SELECT` and the uppercased
(untrimmed) text contains none of the denylisted substrings. -/
theorem c3_isSafe_iff (sql : List Char) :
    validateSQLQuery sql = true ↔
      ("SELECT".toList <+: jsTrim (jsToUpperCase sql)) ∧
        ∀ kw ∈ dangerousKeywords, ¬ (kw.toList <:+: jsToUpperCase sql) := by
  unfold validateSQLQuery
  by_cases hpre : "SELECT".toList.isPrefixOf (jsTrim (jsToUpperCase sql))
  · have hpre' : "SELECT".toList <+: jsTrim (jsToUpperCase sql) :=
      List.isPrefixOf_iff_prefix.mp hpre
    simp only [hpre, not_true, if_false]
    by_cases hany :
        dangerousKeywords.any (fun keyword => decide (keyword.toList <:+: jsTrim (jsToUpperCase sql)))
    · simp only [hany, if_true]
      rw [List.any_eq_true] at hany
      obtain ⟨kw, hkwmem, hkwinf⟩ := hany
      have hshape := dangerousKeywords_shape kw hkwmem
      constructor
      · intro hfalse; exact absurd hfalse (by simp)
      · intro ⟨_, hnone⟩
        exact absurd ((infix_jsTrim_iff (jsToUpperCase sql) hshape.1 hshape.2).mp
          (of_decide_eq_true hkwinf)) (hnone kw hkwmem)
    · simp only [hany, if_false]
      constructor
      · intro _
        refine ⟨hpre', fun kw hkwmem hinf => ?_⟩
        have hshape := dangerousKeywords_shape kw hkwmem
        rw [List.any_eq_true] at hany
        exact hany ⟨kw, hkwmem,
          decide_eq_true ((infix_jsTrim_iff (jsToUpperCase sql) hshape.1 hshape.2).mpr hinf)⟩
      · intro _; rfl
  · simp only [hpre, not_false_iff, if_true]
    constructor
    · intro h; exact absurd h (by simp)
    · intro ⟨hsel, _⟩
      exact absurd ( List.isPrefixOf_iff_prefix.mpr hsel) hpre

/-! ## The in-memory store (`MemStorage` of `server/storage.ts`) -/

/-- A result row, as delivered by a database driver: an ordered record of
column name and displayed value. -/
abbrev Row := List (String × String)

/-- A stored database configuration (the `DatabaseConfig` row type of
`shared/schema.ts`); `createdAt` is a millisecond timestamp. -/
structure DatabaseConfig where
  id : Nat
  name : String
  type : String
  connectionString : String
  isActive : Bool
  createdAt : Nat
deriving Repr, DecidableEq

/-- The insert shape accepted by `createDatabaseConfig` (the
`insertDatabaseConfigSchema` of `shared/schema.ts`, where `isActive` is
optional). -/
structure InsertDatabaseConfig where
  name : String
  type : String
  connectionString : String
  isActive : Option Bool
deriving Repr, DecidableEq

/-- The partial insert shape accepted by `updateDatabaseConfig`
(`Partial<InsertDatabaseConfig>`): every field optional. -/
structure PartialInsertDatabaseConfig where
  name : Option String
  type : Option String
  connectionString : Option String
  isActive : Option Bool
deriving Repr, DecidableEq

/-- A stored query-history record (the `QueryHistory` row type of
`shared/schema.ts`). -/
structure QueryHistoryEntry where
  id : Nat
  naturalQuery : String
  generatedSql : String
  executionTime : Option Nat
  rowCount : Option Nat
  status : String
  errorMessage : Option String
  results : Option (List Row)
  createdAt : Nat
deriving Repr, DecidableEq

/-- The insert shape accepted by `createQueryHistoryEntry`
(`insertQueryHistorySchema`). -/
structure InsertQueryHistory where
  naturalQuery : String
  generatedSql : String
  status : String
  errorMessage : Option String
  executionTime : Option Nat
  rowCount : Option Nat
  results : Option (List Row)
deriving Repr, DecidableEq

/-- The state of `MemStorage`: both `Map`s are modelled as
insertion-ordered lists. -/
structure MemStorage where
  databaseConfigs : List DatabaseConfig
  queryHistory : List QueryHistoryEntry
  currentConfigId : Nat
  currentHistoryId : Nat
deriving Repr, DecidableEq

/-- The `MemStorage` constructor: seeds one default PostgreSQL
configuration with id 1 and `isActive = true`, using `DATABASE_URL` from
the environment when set, and starts the id counters at 2 and 1.
`envDatabaseUrl` stands for `process.env.DATABASE_URL` and `now` for the
`new Date()` taken in the constructor. -/
def initMemStorage (envDatabaseUrl : Option String) (now : Nat) : MemStorage :=
  { databaseConfigs :=
      [{ id := 1, name := "Default PostgreSQL", type := "postgresql",
         connectionString := envDatabaseUrl.getD "postgresql://localhost:5432/sample",
         isActive := true, createdAt := now }],
    queryHistory := [],
    currentConfigId := 2,
    currentHistoryId := 1 }

/-- The method `MemStorage.getDatabaseConfig`. -/
def getDatabaseConfig (st : MemStorage) (id : Nat) : Option DatabaseConfig :=
  st.databaseConfigs.find? (fun cfg => cfg.id == id)

/-- The method `MemStorage.getActiveDatabaseConfig`: the first stored configuration
with `isActive` set. -/
def getActiveDatabaseConfig (st : MemStorage) : Option DatabaseConfig :=
  st.databaseConfigs.find? (fun cfg => cfg.isActive)

/-- The method `MemStorage.createDatabaseConfig`: allocate the next id, deactivate
every existing configuration when the new one is active, then append the
new configuration.  `now` is the `new Date()` of the insert. -/
def createDatabaseConfig (st : MemStorage) (c : InsertDatabaseConfig) (now : Nat) :
    MemStorage × DatabaseConfig :=
  let id := st.currentConfigId
  let newConfig : DatabaseConfig :=
    { id := id, name := c.name, type := c.type, connectionString := c.connectionString,
      isActive := c.isActive.getD false, createdAt := now }
  let configs :=
    if c.isActive.getD false then
      st.databaseConfigs.map (fun cfg => { cfg with isActive := false })
    else
      st.databaseConfigs
  ({ st with databaseConfigs := configs ++ [newConfig], currentConfigId := id + 1 },
   newConfig)

/-- The method `MemStorage.updateDatabaseConfig`: merge the partial update over the
existing record, deactivate every other configuration when the update sets
`isActive`, and store the merged record under the same id; `none` when the
id is unknown. -/
def updateDatabaseConfig (st : MemStorage) (id : Nat) (c : PartialInsertDatabaseConfig) :
    MemStorage × Option DatabaseConfig :=
  match st.databaseConfigs.find? (fun cfg => cfg.id == id) with
  | none => (st, none)
  | some existing =>
    let updated : DatabaseConfig :=
      { existing with
        name := c.name.getD existing.name,
        type := c.type.getD existing.type,
        connectionString := c.connectionString.getD existing.connectionString,
        isActive := c.isActive.getD existing.isActive }
    let configs₁ :=
      if c.isActive.getD false then
        st.databaseConfigs.map (fun cfg => if cfg.id == id then cfg else { cfg with isActive := false })
      else
        st.databaseConfigs
    let configs₂ := configs₁.map (fun cfg => if cfg.id == id then updated else cfg)
    ({ st with databaseConfigs := configs₂ }, some updated)

/-- Ordering of history entries used by `getQueryHistory`: most recent
creation time first (the comparator `b.createdAt - a.createdAt`). -/
def newestFirst (a b : QueryHistoryEntry) : Prop :=
  b.createdAt ≤ a.createdAt

instance : DecidableRel newestFirst :=
  fun a b => inferInstanceAs (Decidable (b.createdAt ≤ a.createdAt))

/-- The method `MemStorage.getQueryHistory`: sort all stored entries newest first and
take the first `limit` of them.  (In TypeScript the `limit` parameter
defaults to 50, but the route always passes it explicitly.) -/
def getQueryHistory (st : MemStorage) (limit : Nat) : List QueryHistoryEntry :=
  (List.insertionSort newestFirst st.queryHistory).take limit

/-- The method `MemStorage.createQueryHistoryEntry`: allocate the next id and append
the entry; `now` is the `new Date()` used as `createdAt`. -/
def createQueryHistoryEntry (st : MemStorage) (e : InsertQueryHistory) (now : Nat) :
    MemStorage × QueryHistoryEntry :=
  let id := st.currentHistoryId
  let newEntry : QueryHistoryEntry :=
    { id := id, naturalQuery := e.naturalQuery, generatedSql := e.generatedSql,
      executionTime := e.executionTime, rowCount := e.rowCount, status := e.status,
      errorMessage := e.errorMessage, results := e.results, createdAt := now }
  ({ st with queryHistory := st.queryHistory ++ [newEntry], currentHistoryId := id + 1 },
   newEntry)

/-- The method `MemStorage.clearQueryHistory`. -/
def clearQueryHistory (st : MemStorage) : MemStorage :=
  { st with queryHistory := [] }

/-- The number of active configurations in the store. -/
def countActive (st : MemStorage) : Nat :=
  (st.databaseConfigs.filter (fun cfg => cfg.isActive)).length

/-! ## The backend connection abstraction (`server/services/database.ts`) -/

/-- The result shape of `DatabaseConnection.executeQuery`. -/
structure ExecutionResult where
  recordset : List Row
  rowsAffected : List Nat
  executionTime : Nat
deriving Repr, DecidableEq

/-- The outcome of the underlying SQL-Server driver call
(`pool.request().query(query)`), an external event: on success the
optional `recordset` and `rowsAffected` fields of the driver result, on
failure the message of the thrown error. -/
abbrev MssqlDriverOutcome := Except String (Option (List Row) × Option (List Nat))

/-- The outcome of the underlying Postgres driver call (`pool.query(query)`):
on success the optional `rows` and `rowCount` fields of the driver result. -/
abbrev PgDriverOutcome := Except String (Option (List Row) × Option Nat)

/-- The method `SQLServerConnection.executeQuery`: wall-clock time is read just before
the driver call (`startTime`) and again after it resolves or fails
(`endTime`); on failure the thrown error message embeds the elapsed
milliseconds and the underlying message. -/
def sqlServerExecuteQuery (startTime endTime : Nat) (driverOutcome : MssqlDriverOutcome) :
    Except String ExecutionResult :=
  match driverOutcome with
  | Except.ok (recordset, rowsAffected) =>
      Except.ok { recordset := recordset.getD [], rowsAffected := rowsAffected.getD [0],
                  executionTime := endTime - startTime }
  | Except.error msg =>
      Except.error ("Query execution failed (" ++ Nat.repr (endTime - startTime) ++ "ms): " ++ msg)

/-- The method `PostgreSQLConnection.executeQuery`: same timing discipline; the driver
result exposes `rows` and a scalar `rowCount` instead. -/
def postgresExecuteQuery (startTime endTime : Nat) (driverOutcome : PgDriverOutcome) :
    Except String ExecutionResult :=
  match driverOutcome with
  | Except.ok (rows, rowCount) =>
      Except.ok { recordset := rows.getD [], rowsAffected := [rowCount.getD 0],
                  executionTime := endTime - startTime }
  | Except.error msg =>
      Except.error ("Query execution failed (" ++ Nat.repr (endTime - startTime) ++ "ms): " ++ msg)

/-- The substring-embedding relation used to state C7: `needle` occurs
contiguously inside `haystack`. -/
def embedsSub (haystack needle : String) : Prop :=
  ∃ p q, haystack = p ++ needle ++ q

/-- The two backend variants dispatched by `DatabaseManager.createConnection`. -/
inductive BackendKind where
  | sqlserver
  | postgresql
deriving Repr, DecidableEq

/-- The JavaScript `String.prototype.toLowerCase`, modelled per character
(the backend tags are ASCII). -/
def jsToLowerCase (s : String) : String :=
  String.mk (s.toList.map Char.toLower)

/-- The method `DatabaseManager.createConnection`: case-insensitive dispatch on the
backend tag, throwing an unsupported-type error for any other tag.  The
returned handle is identified by its kind and connection string. -/
def createConnection (type connectionString : String) :
    Except String (BackendKind × String) :=
  if jsToLowerCase type == "sqlserver" then
    Except.ok (BackendKind.sqlserver, connectionString)
  else if jsToLowerCase type == "postgresql" then
    Except.ok (BackendKind.postgresql, connectionString)
  else
    Except.error ("Unsupported database type: " ++ type)

/-! ## The route handlers (`server/routes.ts`) -/

/-- The result of `generateSQLFromNaturalLanguage` after its JSON
post-processing (missing-field defaults and confidence clamping applied). -/
structure SQLGenerationResult where
  sql : String
  explanation : String
  confidence : Float
  warnings : List String
deriving Repr

/-- The response body sent on successful execution
(`QueryExecutionResponse` of `shared/schema.ts`). -/
structure QueryExecutionResponse where
  naturalQuery : String
  generatedSql : String
  results : List Row
  executionTime : Nat
  rowCount : Nat
  status : String
deriving Repr, DecidableEq

/-- The possible responses of `POST /api/queries/execute`. -/
inductive ExecResponse where
  /-- status 400: the request body failed the zod shape validation. -/
  | invalidRequest
  /-- status 400: no active database configuration found. -/
  | noActiveConfig
  /-- status 400: generated query failed security validation. -/
  | securityRejection
  /-- status 200: successful execution. -/
  | success (body : QueryExecutionResponse)
  /-- status 500: database execution failed; the body carries the message and the
  generated SQL. -/
  | dbFailure (message generatedSql : String)
  /-- status 500: reached the outer catch (for example a generation failure). -/
  | serverError (message : String)
deriving Repr, DecidableEq

/-- The HTTP status code of each execute response. -/
def ExecResponse.statusCode : ExecResponse → Nat
  | ExecResponse.invalidRequest => 400
  | ExecResponse.noActiveConfig => 400
  | ExecResponse.securityRejection => 400
  | ExecResponse.success _ => 200
  | ExecResponse.dbFailure _ _ => 500
  | ExecResponse.serverError _ => 500

/-- The observable database-connection events of one request. -/
inductive DbEvent where
  /-- a connection handle was created by the factory -/
  | openConn (kind : BackendKind) (connectionString : String)
  /-- the method `executeQuery` was invoked on a handle -/
  | execQuery (sql : String)
  /-- the method `close()` was invoked on a handle -/
  | closeConn
  /-- the external SQL generator was invoked -/
  | genCall (naturalQuery type tableSchema : String)
deriving Repr, DecidableEq

/-- The external events one execute request can observe: the outcome of the
schema-introspection query, of the generation call, and of the execution
query, plus the wall-clock readings. -/
structure ExecOracle where
  /-- outcome of `connection.executeQuery(schemaQuery)` in the schema block -/
  schemaOutcome : Except String ExecutionResult
  /-- outcome of `generateSQLFromNaturalLanguage`: on failure, the message
  wrapped by that function into its thrown error -/
  genOutcome : Except String SQLGenerationResult
  /-- outcome of `connection.executeQuery(sqlResult.sql)` in the execution block -/
  execOutcome : Except String ExecutionResult
  /-- the value of `Date.now()` taken at the start of the request -/
  startTime : Nat
  /-- the value of `Date.now()` taken in an error branch -/
  errTime : Nat
  /-- the `new Date()` used as `createdAt` of an inserted history entry -/
  entryTime : Nat

/-- The dialect-specific schema-introspection query for Postgres. -/
def schemaQueryPostgres : String :=
  "SELECT table_name, column_name, data_type, is_nullable \n             FROM information_schema.columns \n             WHERE table_schema = \x27public\x27 \n             ORDER BY table_name, ordinal_position"

/-- The dialect-specific schema-introspection query for SQL Server. -/
def schemaQuerySqlServer : String :=
  "SELECT TABLE_NAME, COLUMN_NAME, DATA_TYPE, IS_NULLABLE \n             FROM INFORMATION_SCHEMA.COLUMNS \n             WHERE TABLE_SCHEMA = \x27dbo\x27 \n             ORDER BY TABLE_NAME, ORDINAL_POSITION"

/-- JavaScript `a || b` on two possibly-missing strings: `a` unless it is
missing or empty. -/
def jsOrString (a b : Option String) : Option String :=
  match a with
  | some s => if s == "" then b else some s
  | none => b

/-- Field access `row.key` on a driver row. -/
def rowField (row : Row) (key : String) : Option String :=
  (row.find? (fun kv => kv.1 == key)).map (fun kv => kv.2)

/-- The schema folding of the route handler: group the
`information_schema` rows by table and render one line per table.  Empty
recordsets leave the schema context empty. -/
def buildTableSchema (recordset : List Row) : String :=
  if recordset.length > 0 then
    let tables := recordset.foldl
      (fun (tables : List (String × List String)) row =>
        let tableName := (jsOrString (rowField row "table_name") (rowField row "TABLE_NAME")).getD "undefined"
        let columnName := (jsOrString (rowField row "column_name") (rowField row "COLUMN_NAME")).getD "undefined"
        let dataType := (jsOrString (rowField row "data_type") (rowField row "DATA_TYPE")).getD "undefined"
        let isNullable := (jsOrString (rowField row "is_nullable") (rowField row "IS_NULLABLE")).getD "undefined"
        let columnEntry := columnName ++ " (" ++ dataType ++
          (if isNullable == "YES" then ", nullable" else "") ++ ")"
        if tables.any (fun e => e.1 == tableName) then
          tables.map (fun e => if e.1 == tableName then (e.1, e.2 ++ [columnEntry]) else e)
        else
          tables ++ [(tableName, [columnEntry])])
      []
    String.intercalate "\n" (tables.map (fun e => e.1 ++ ": " ++ String.intercalate ", " e.2))
  else
    ""

/-- The zod shape check of the request body
(`naturalLanguageQuerySchema`: a string of 1 to 500 characters). -/
def requestShapeValid (query : String) : Bool :=
  1 ≤ query.length && query.length ≤ 500

/-- The route calls `validateSQLQuery` without `await`: the tested value is
the Promise object, which in JavaScript is truthy no matter which boolean
it resolves to.  The resolved value is therefore ignored. -/
def jsPromiseTruthy (_resolvedValue : Bool) : Bool :=
  true

/-- The handler of `POST /api/queries/execute`, as a pure function of the
store state, the request body and the oracle of external events.  It
returns the new store state, the response, and the trace of connection
events in order.  The control flow mirrors the TypeScript handler:

* shape validation, then active-configuration lookup;
* a best-effort schema-introspection block whose `catch` swallows both a
  factory failure and a query failure, and whose `close()` is reached only
  after a successful query;
* the external generation call;
* the unawaited `validateSQLQuery` call (see `jsPromiseTruthy`): the
  rejection branch below is transcribed from the source but is
  unreachable because the tested Promise object is truthy;
* the execution block, whose `close()` is reached only after the history
  insert on the success path, while the `catch` records the failure and
  responds 500 without closing. -/
def executeRoute (st : MemStorage) (query : String) (o : ExecOracle) :
    MemStorage × ExecResponse × List DbEvent :=
  if ¬ requestShapeValid query then
    (st, ExecResponse.invalidRequest, [])
  else
    match getActiveDatabaseConfig st with
    | none => (st, ExecResponse.noActiveConfig, [])
    | some dbConfig =>
      let schemaQuery :=
        if dbConfig.type == "postgresql" then schemaQueryPostgres else schemaQuerySqlServer
      let (tableSchema, schemaEvents) :=
        match createConnection dbConfig.type dbConfig.connectionString with
        | Except.error _ => ("", [])
        | Except.ok (kind, _) =>
          match o.schemaOutcome with
          | Except.error _ =>
              ("", [DbEvent.openConn kind dbConfig.connectionString,
                    DbEvent.execQuery schemaQuery])
          | Except.ok schemaResult =>
              (buildTableSchema schemaResult.recordset,
               [DbEvent.openConn kind dbConfig.connectionString,
                DbEvent.execQuery schemaQuery,
                DbEvent.closeConn])
      match o.genOutcome with
      | Except.error msg =>
          (st, ExecResponse.serverError ("Failed to generate SQL: " ++ msg),
           schemaEvents ++ [DbEvent.genCall query dbConfig.type tableSchema])
      | Except.ok sqlResult =>
        let events₁ := schemaEvents ++ [DbEvent.genCall query dbConfig.type tableSchema]
        if ¬ jsPromiseTruthy (validateSQLQuery sqlResult.sql.toList) then
          let inserted := createQueryHistoryEntry st
            { naturalQuery := query, generatedSql := sqlResult.sql, status := "error",
              errorMessage := some "Generated query failed security validation",
              executionTime := some (o.errTime - o.startTime), rowCount := some 0,
              results := none } o.entryTime
          (inserted.1, ExecResponse.securityRejection, events₁)
        else
          match createConnection dbConfig.type dbConfig.connectionString with
          | Except.error msg =>
            let inserted := createQueryHistoryEntry st
              { naturalQuery := query, generatedSql := sqlResult.sql, status := "error",
                errorMessage := some msg,
                executionTime := some (o.errTime - o.startTime), rowCount := some 0,
                results := none } o.entryTime
            (inserted.1, ExecResponse.dbFailure ("Database query failed: " ++ msg) sqlResult.sql,
             events₁)
          | Except.ok (kind, _) =>
            let events₂ := events₁ ++
              [DbEvent.openConn kind dbConfig.connectionString,
               DbEvent.execQuery sqlResult.sql]
            match o.execOutcome with
            | Except.ok queryResult =>
              let inserted := createQueryHistoryEntry st
                { naturalQuery := query, generatedSql := sqlResult.sql, status := "success",
                  errorMessage := none,
                  executionTime := some queryResult.executionTime,
                  rowCount := some queryResult.recordset.length,
                  results := some queryResult.recordset } o.entryTime
              (inserted.1,
               ExecResponse.success
                 { naturalQuery := query, generatedSql := sqlResult.sql,
                   results := queryResult.recordset,
                   executionTime := queryResult.executionTime,
                   rowCount := queryResult.recordset.length, status := "success" },
               events₂ ++ [DbEvent.closeConn])
            | Except.error msg =>
              let inserted := createQueryHistoryEntry st
                { naturalQuery := query, generatedSql := sqlResult.sql, status := "error",
                  errorMessage := some msg,
                  executionTime := some (o.errTime - o.startTime), rowCount := some 0,
                  results := none } o.entryTime
              (inserted.1,
               ExecResponse.dbFailure ("Database query failed: " ++ msg) sqlResult.sql,
               events₂)

/-- The handler of `GET /api/queries/history`: an absent `limit` query
parameter defaults to 50. -/
def historyRoute (st : MemStorage) (limitParam : Option Nat) : List QueryHistoryEntry :=
  getQueryHistory st (limitParam.getD 50)

/-- The response of `POST /api/database/test`: the `success` field is
absent on the missing-parameter path. -/
structure TestResponse where
  statusCode : Nat
  success : Option Bool
  message : String
deriving Repr, DecidableEq

/-- JavaScript falsiness of a possibly-missing string: missing or empty. -/
def jsFalsyString (s : Option String) : Bool :=
  s.getD "" == ""

/-- The handler of `POST /api/database/test`: requires both parameters,
creates a connection through the factory (whose failure is caught and
reported as a 500), probes it with `testConnection` (an external event,
`testOutcome`), closes it, and reports the outcome.  No storage operation
occurs on any path, so the store state is returned unchanged. -/
def testRoute (st : MemStorage) (type connectionString : Option String) (testOutcome : Bool) :
    MemStorage × TestResponse :=
  if jsFalsyString type || jsFalsyString connectionString then
    (st, { statusCode := 400, success := none,
           message := "Database type and connection string are required" })
  else
    match createConnection (type.getD "") (connectionString.getD "") with
    | Except.error msg =>
        (st, { statusCode := 500, success := some false, message := msg })
    | Except.ok _ =>
        if testOutcome then
          (st, { statusCode := 200, success := some true,
                 message := "Database connection successful" })
        else
          (st, { statusCode := 400, success := some false,
                 message := "Database connection failed" })

/-- The number of connection handles created during a request. -/
def countOpens (trace : List DbEvent) : Nat :=
  (trace.filter (fun e => match e with | DbEvent.openConn _ _ => true | _ => false)).length

/-- The number of `close()` calls performed during a request. -/
def countCloses (trace : List DbEvent) : Nat :=
  (trace.filter (fun e => match e with | DbEvent.closeConn => true | _ => false)).length

/-! ## Claim theorems -/

/-- The scenario of C1: a fresh store (whose default configuration is
active), a well-formed request, a generator that returns `DROP TABLE t`,
and a database that rejects the statement. -/
def c1Oracle : ExecOracle :=
  { schemaOutcome := Except.error "connect ECONNREFUSED",
    genOutcome := Except.ok
      { sql := "DROP TABLE t", explanation := "", confidence := 0.9, warnings := [] },
    execOutcome := Except.error "must be owner of table t",
    startTime := 1000, errTime := 1010, entryTime := 1010 }

/-- C1: the validator does deem `DROP TABLE t` unsafe, but because the route
calls the async `validateSQLQuery` without `await`, the truthy Promise
object skips the rejection branch: the handler invokes `executeQuery` with
the unsafe statement, responds with the 500 execution-failure response
instead of the 400 security rejection, and the single recorded
`QueryAttempt` carries the database error, not the security-validation
message.  This refutes the claimed behaviour at a concrete input and
witnesses the divergence between the code and its own dead rejection
branch. -/
theorem c1_security_rejection_bypassed :
    validateSQLQuery ("DROP TABLE t".toList) = false ∧
    (executeRoute (initMemStorage none 0) "Show all rows" c1Oracle).2.2 =
      [DbEvent.openConn BackendKind.postgresql "postgresql://localhost:5432/sample",
       DbEvent.execQuery schemaQueryPostgres,
       DbEvent.genCall "Show all rows" "postgresql" "",
       DbEvent.openConn BackendKind.postgresql "postgresql://localhost:5432/sample",
       DbEvent.execQuery "DROP TABLE t"] ∧
    (executeRoute (initMemStorage none 0) "Show all rows" c1Oracle).2.1 =
      ExecResponse.dbFailure "Database query failed: must be owner of table t" "DROP TABLE t" ∧
    (executeRoute (initMemStorage none 0) "Show all rows" c1Oracle).1.queryHistory.map
      (fun e => e.errorMessage) = [some "must be owner of table t"] :=
  ⟨by decide, rfl, rfl, rfl⟩

/-- The scenario of the C2 counterexample: the schema query succeeds (so
its connection is closed), the generated `SELECT` is executed, and the
execution fails. -/
def c2Oracle : ExecOracle :=
  { schemaOutcome := Except.ok { recordset := [], rowsAffected := [0], executionTime := 5 },
    genOutcome := Except.ok
      { sql := "SELECT * FROM t LIMIT 100", explanation := "", confidence := 0.9, warnings := [] },
    execOutcome := Except.error "relation t does not exist",
    startTime := 1000, errTime := 1010, entryTime := 1010 }

/-- C2 counterexample: on a failing execution, the handler opens two
connections (schema introspection and execution) but closes only one — the
execution connection is never closed, so not every opened handle has
`close()` called before the handler returns. -/
theorem c2_counterexample :
    countOpens (executeRoute (initMemStorage none 0) "Show all rows" c2Oracle).2.2 = 2 ∧
    countCloses (executeRoute (initMemStorage none 0) "Show all rows" c2Oracle).2.2 = 1 :=
  ⟨rfl, rfl⟩

/-- The number of connection handles the execute handler creates on a
given path: one for schema introspection and one for execution, each
contingent on the path reaching the corresponding `createConnection`. -/
def expectedOpens (st : MemStorage) (query : String) (o : ExecOracle) : Nat :=
  if ¬ requestShapeValid query then 0
  else
    match getActiveDatabaseConfig st with
    | none => 0
    | some dbConfig =>
      match createConnection dbConfig.type dbConfig.connectionString with
      | Except.error _ => 0
      | Except.ok _ =>
        1 + (match o.genOutcome with
             | Except.error _ => 0
             | Except.ok _ => 1)

/-- The number of `close()` calls the execute handler performs on a given
path: the schema connection is closed only when the schema query succeeds,
and the execution connection only when execution succeeds. -/
def expectedCloses (st : MemStorage) (query : String) (o : ExecOracle) : Nat :=
  if ¬ requestShapeValid query then 0
  else
    match getActiveDatabaseConfig st with
    | none => 0
    | some dbConfig =>
      match createConnection dbConfig.type dbConfig.connectionString with
      | Except.error _ => 0
      | Except.ok _ =>
        (match o.schemaOutcome with
         | Except.ok _ => 1
         | Except.error _ => 0) +
        (match o.genOutcome with
         | Except.error _ => 0
         | Except.ok _ =>
           match o.execOutcome with
           | Except.ok _ => 1
           | Except.error _ => 0)

/-- C2 (amended): on every request, the handler closes the
schema-introspection connection exactly when the schema query succeeds and
the execution connection exactly when execution succeeds; on schema-fetch
failure and on execution failure the opened connection is left unclosed. -/
theorem c2_close_only_on_success_paths :
    ∀ (st : MemStorage) (query : String) (o : ExecOracle),
      countOpens (executeRoute st query o).2.2 = expectedOpens st query o ∧
      countCloses (executeRoute st query o).2.2 = expectedCloses st query o := by
  intro st query o
  unfold executeRoute expectedOpens expectedCloses
  cases hq : requestShapeValid query with
  | false => simp [countOpens, countCloses]
  | true =>
    simp only [not_true, if_false, Bool.true_eq_false, ite_false]
    cases hcfg : getActiveDatabaseConfig st with
    | none => simp [countOpens, countCloses]
    | some dbConfig =>
      cases hconn : createConnection dbConfig.type dbConfig.connectionString with
      | error msg =>
        cases hgen : o.genOutcome with
        | error m => simp [hconn, hgen, countOpens, countCloses]
        | ok sqlResult =>
          simp [hconn, hgen, jsPromiseTruthy, countOpens, countCloses]
      | ok handle =>
        obtain ⟨kind, cs⟩ := handle
        cases hsch : o.schemaOutcome with
        | error m =>
          cases hgen : o.genOutcome with
          | error m₂ => simp [hconn, hsch, hgen, countOpens, countCloses, List.filter_append]
          | ok sqlResult =>
            cases hex : o.execOutcome with
            | error m₃ =>
              simp [hconn, hsch, hgen, hex, jsPromiseTruthy, countOpens, countCloses,
                List.filter_append]
            | ok queryResult =>
              simp [hconn, hsch, hgen, hex, jsPromiseTruthy, countOpens, countCloses,
                List.filter_append]
        | ok schemaResult =>
          cases hgen : o.genOutcome with
          | error m₂ => simp [hconn, hsch, hgen, countOpens, countCloses, List.filter_append]
          | ok sqlResult =>
            cases hex : o.execOutcome with
            | error m₃ =>
              simp [hconn, hsch, hgen, hex, jsPromiseTruthy, countOpens, countCloses,
                List.filter_append]
            | ok queryResult =>
              simp [hconn, hsch, hgen, hex, jsPromiseTruthy, countOpens, countCloses,
                List.filter_append]

/-- If no element of the list carries the updated id, the rewritten list
(deactivate everything else, substitute the updated record) contains no
active configuration. -/
theorem filter_active_update_of_not_mem (updated : DatabaseConfig) (id : Nat) :
    ∀ (l : List DatabaseConfig), (∀ cfg ∈ l, cfg.id ≠ id) →
      (l.map (fun cfg => if cfg.id == id then updated else { cfg with isActive := false })).filter
        (fun cfg => cfg.isActive) = [] := by
  intro l
  induction l with
  | nil => intro _; rfl
  | cons a l ih =>
    intro hall
    have ha : (a.id == id) = false := by
      simp [hall a (List.mem_cons_self a l)]
    simp only [List.map_cons, ha, if_false, Bool.false_eq_true]
    rw [List.filter_cons]
    simp only [show ({ a with isActive := false } : DatabaseConfig).isActive = false from rfl,
      Bool.false_eq_true, if_false]
    exact ih (fun cfg hc => hall cfg (List.mem_cons_of_mem a hc))

/-- If the ids are distinct, the id occurs, and the substituted record is
active, the rewritten list contains exactly one active configuration. -/
theorem filter_active_update_length (updated : DatabaseConfig)
    (hupd : updated.isActive = true) (id : Nat) :
    ∀ (l : List DatabaseConfig), (l.map (fun cfg => cfg.id)).Nodup →
      (∃ cfg ∈ l, cfg.id = id) →
      ((l.map (fun cfg => if cfg.id == id then updated else { cfg with isActive := false })).filter
        (fun cfg => cfg.isActive)).length = 1 := by
  intro l
  induction l with
  | nil => intro _ hex; obtain ⟨cfg, hmem, _⟩ := hex; exact absurd hmem (by simp)
  | cons a l ih =>
    intro hnodup hex
    rw [List.map_cons, List.nodup_cons] at hnodup
    by_cases ha : a.id = id
    · have ha' : (a.id == id) = true := by simp [ha]
      simp only [List.map_cons, ha', if_true]
      rw [List.filter_cons]
      simp only [hupd, if_true]
      have htail : ∀ cfg ∈ l, cfg.id ≠ id := by
        intro cfg hc he
        apply hnodup.1
        have hmem : cfg.id ∈ List.map (fun cfg => cfg.id) l :=
          List.mem_map_of_mem (fun cfg => cfg.id) hc
        rw [he, ← ha] at hmem
        exact hmem
      rw [filter_active_update_of_not_mem updated id l htail]
      rfl
    · have ha' : (a.id == id) = false := by simp [ha]
      simp only [List.map_cons, ha', if_false, Bool.false_eq_true]
      rw [List.filter_cons]
      simp only [show ({ a with isActive := false } : DatabaseConfig).isActive = false from rfl,
        Bool.false_eq_true, if_false]
      apply ih hnodup.2
      obtain ⟨cfg, hmem, hid⟩ := hex
      rcases List.mem_cons.mp hmem with rfl | hmem'
      · exact absurd hid ha
      · exact ⟨cfg, hmem', hid⟩

/-- The configuration list produced by an activating update: the matching
record is replaced by the merged one and every other record is
deactivated. -/
theorem updateDatabaseConfig_configs (st : MemStorage) (id : Nat)
    (c : PartialInsertDatabaseConfig) (existing : DatabaseConfig)
    (hfind : st.databaseConfigs.find? (fun cfg => cfg.id == id) = some existing)
    (hc : c.isActive = some true) :
    (updateDatabaseConfig st id c).1.databaseConfigs =
      st.databaseConfigs.map (fun cfg => if cfg.id == id then
          { existing with
            name := c.name.getD existing.name,
            type := c.type.getD existing.type,
            connectionString := c.connectionString.getD existing.connectionString,
            isActive := c.isActive.getD existing.isActive }
        else { cfg with isActive := false }) := by
  unfold updateDatabaseConfig
  rw [hfind]
  simp only [hc, Option.getD_some, if_true]
  rw [List.map_map]
  apply List.map_congr_left
  intro a _
  by_cases ha : (a.id == id) = true
  · simp [Function.comp, ha]
  · simp only [Bool.not_eq_true] at ha
    simp [Function.comp, ha]

/-- C4: creating a configuration with `isActive = true` deactivates every
other configuration and leaves exactly one active configuration, from any
store state; updating an existing configuration to `isActive = true` does
the same (the store is keyed by id, so ids are pairwise distinct). -/
theorem c4_single_active_invariant :
    (∀ (st : MemStorage) (c : InsertDatabaseConfig) (now : Nat),
        c.isActive = some true →
        countActive (createDatabaseConfig st c now).1 = 1) ∧
    (∀ (st : MemStorage) (id : Nat) (c : PartialInsertDatabaseConfig),
        c.isActive = some true →
        (st.databaseConfigs.map (fun cfg => cfg.id)).Nodup →
        (∃ cfg ∈ st.databaseConfigs, cfg.id = id) →
        countActive (updateDatabaseConfig st id c).1 = 1) := by
  constructor
  · intro st c now hc
    unfold createDatabaseConfig countActive
    simp only [hc, Option.getD_some, if_true]
    rw [List.filter_append]
    have hdeact :
        (st.databaseConfigs.map (fun cfg => { cfg with isActive := false })).filter
          (fun cfg => cfg.isActive) = [] := by
      induction st.databaseConfigs with
      | nil => rfl
      | cons a l ih =>
        rw [List.map_cons, List.filter_cons]
        simp only [show ({ a with isActive := false } : DatabaseConfig).isActive = false from rfl,
          Bool.false_eq_true, if_false]
        exact ih
    rw [hdeact]
    simp
  · intro st id c hc hnodup hex
    obtain ⟨cfg₀, hmem₀, hid₀⟩ := hex
    have hfind : (st.databaseConfigs.find? (fun cfg => cfg.id == id)).isSome := by
      rw [List.find?_isSome]
      exact ⟨cfg₀, hmem₀, by simp [hid₀]⟩
    obtain ⟨existing, hfind⟩ := Option.isSome_iff_exists.mp hfind
    unfold countActive
    rw [updateDatabaseConfig_configs st id c existing hfind hc]
    exact filter_active_update_length _ (by simp [hc]) id st.databaseConfigs hnodup
      ⟨cfg₀, hmem₀, hid₀⟩

/-- C4 witness: applying the invariant to the seeded store, both for a
create with `isActive = true` and for an update of config 1 to
`isActive = true`. -/
theorem c4_witness :
    countActive (createDatabaseConfig (initMemStorage none 0)
      { name := "n", type := "postgresql", connectionString := "cs", isActive := some true }
      5).1 = 1 ∧
    countActive (updateDatabaseConfig (initMemStorage none 0) 1
      { name := none, type := none, connectionString := none, isActive := some true }).1 = 1 :=
  ⟨c4_single_active_invariant.1 (initMemStorage none 0)
      { name := "n", type := "postgresql", connectionString := "cs", isActive := some true } 5 rfl,
   c4_single_active_invariant.2 (initMemStorage none 0) 1
      { name := none, type := none, connectionString := none, isActive := some true } rfl
      (by decide)
      ⟨{ id := 1, name := "Default PostgreSQL", type := "postgresql",
         connectionString := "postgresql://localhost:5432/sample",
         isActive := true, createdAt := 0 }, by decide, rfl⟩⟩

/-- C5: with a well-formed request and no active configuration, the execute
handler returns the 400 no-active-configuration response, leaves the store
(including the query history) untouched, and performs no connection or
generator event at all. -/
theorem c5_no_active_config :
    ∀ (st : MemStorage) (query : String) (o : ExecOracle),
      requestShapeValid query = true →
      getActiveDatabaseConfig st = none →
      executeRoute st query o = (st, ExecResponse.noActiveConfig, []) ∧
      ExecResponse.statusCode ExecResponse.noActiveConfig = 400 := by
  intro st query o hq hnone
  refine ⟨?_, rfl⟩
  unfold executeRoute
  rw [hnone]
  simp [hq]

/-- A generic oracle whose external calls all succeed, used to instantiate
universally quantified route theorems. -/
def demoOracle : ExecOracle :=
  { schemaOutcome := Except.ok { recordset := [], rowsAffected := [0], executionTime := 3 },
    genOutcome := Except.ok
      { sql := "SELECT * FROM t LIMIT 100", explanation := "lists the rows",
        confidence := 0.9, warnings := [] },
    execOutcome := Except.ok { recordset := [], rowsAffected := [0], executionTime := 4 },
    startTime := 1000, errTime := 1010, entryTime := 1010 }

/-- C5 witness: the theorem applied to a store with no configurations. -/
theorem c5_witness :
    executeRoute
        { databaseConfigs := [], queryHistory := [], currentConfigId := 1, currentHistoryId := 1 }
        "Show all rows" demoOracle =
      ({ databaseConfigs := [], queryHistory := [], currentConfigId := 1, currentHistoryId := 1 },
       ExecResponse.noActiveConfig, []) ∧
    ExecResponse.statusCode ExecResponse.noActiveConfig = 400 :=
  c5_no_active_config
    { databaseConfigs := [], queryHistory := [], currentConfigId := 1, currentHistoryId := 1 }
    "Show all rows" demoOracle rfl rfl

/-- C6: for every store state and every limit, the history listing contains
at most `limit` entries and is sorted newest first, and the route with no
`limit` parameter lists with the default limit 50. -/
theorem c6_history_listing :
    ∀ (st : MemStorage) (limit : Nat),
      (getQueryHistory st limit).length ≤ limit ∧
      List.Sorted newestFirst (getQueryHistory st limit) ∧
      historyRoute st none = getQueryHistory st 50 := by
  intro st limit
  refine ⟨List.length_take_le _ _, ?_, rfl⟩
  have htotal : IsTotal QueryHistoryEntry newestFirst :=
    ⟨fun a b => Nat.le_total b.createdAt a.createdAt⟩
  have htrans : IsTrans QueryHistoryEntry newestFirst :=
    ⟨fun _ _ _ hab hbc => Nat.le_trans hbc hab⟩
  have hs : List.Sorted newestFirst (List.insertionSort newestFirst st.queryHistory) :=
    @List.sorted_insertionSort _ newestFirst _ htotal htrans st.queryHistory
  exact List.Pairwise.sublist (List.take_sublist _ _) hs

/-- C7: for both backend variants, a failing driver call makes
`executeQuery` fail with a uniform message that embeds the elapsed wall
clock time (read just before the call and just after the failure) and the
underlying failure message. -/
theorem c7_execution_error_message :
    ∀ (tStart tEnd : Nat) (msg : String), tStart ≤ tEnd →
      ∃ errMsg,
        sqlServerExecuteQuery tStart tEnd (Except.error msg) = Except.error errMsg ∧
        postgresExecuteQuery tStart tEnd (Except.error msg) = Except.error errMsg ∧
        embedsSub errMsg (Nat.repr (tEnd - tStart)) ∧
        embedsSub errMsg msg := by
  intro tStart tEnd msg _
  refine ⟨"Query execution failed (" ++ Nat.repr (tEnd - tStart) ++ "ms): " ++ msg,
    rfl, rfl, ?_, ?_⟩
  · exact ⟨"Query execution failed (", "ms): " ++ msg, by simp [String.append_assoc]⟩
  · exact ⟨"Query execution failed (" ++ Nat.repr (tEnd - tStart) ++ "ms): ", "",
      by simp [String.append_empty]⟩

/-- C7 witness: the theorem applied to concrete clock readings and a
concrete driver failure. -/
theorem c7_witness :
    ∃ errMsg,
      sqlServerExecuteQuery 100 103 (Except.error "relation t does not exist") =
        Except.error errMsg ∧
      postgresExecuteQuery 100 103 (Except.error "relation t does not exist") =
        Except.error errMsg ∧
      embedsSub errMsg (Nat.repr (103 - 100)) ∧
      embedsSub errMsg "relation t does not exist" :=
  c7_execution_error_message 100 103 "relation t does not exist" (by decide)

/-- C8: clearing the history and then listing it yields the empty sequence,
from every store state, including one that has just recorded an execution
attempt. -/
theorem c8_clear_then_list_empty :
    ∀ (st : MemStorage) (limit : Nat) (e : InsertQueryHistory) (now : Nat),
      getQueryHistory (clearQueryHistory st) limit = [] ∧
      getQueryHistory (clearQueryHistory (createQueryHistoryEntry st e now).1) limit = [] := by
  intro st limit e now
  constructor <;> simp [getQueryHistory, clearQueryHistory]

/-- C9: the connection-test handler never writes to the store on any path
(configurations and history are returned unchanged), and whenever both
parameters are supplied it responds with a `success` boolean and a
non-empty message. -/
theorem c9_test_route_no_mutation :
    ∀ (st : MemStorage) (type connectionString : Option String) (testOutcome : Bool),
      (testRoute st type connectionString testOutcome).1 = st ∧
      (jsFalsyString type = false → jsFalsyString connectionString = false →
        (testRoute st type connectionString testOutcome).2.success.isSome ∧
        (testRoute st type connectionString testOutcome).2.message ≠ "") := by
  intro st type connectionString testOutcome
  unfold testRoute
  cases hft : jsFalsyString type with
  | true => simp [hft]
  | false =>
    cases hfc : jsFalsyString connectionString with
    | true => simp [hft, hfc]
    | false =>
      cases hcr : createConnection (type.getD "") (connectionString.getD "") with
      | error msg =>
        have hmsg : msg = "Unsupported database type: " ++ type.getD "" := by
          unfold createConnection at hcr
          by_cases h₁ : (jsToLowerCase (type.getD "") == "sqlserver") = true
          · rw [if_pos h₁] at hcr
            exact absurd hcr (by simp)
          · rw [if_neg h₁] at hcr
            by_cases h₂ : (jsToLowerCase (type.getD "") == "postgresql") = true
            · rw [if_pos h₂] at hcr
              exact absurd hcr (by simp)
            · rw [if_neg h₂] at hcr
              injection hcr with h
              exact h.symm
        refine ⟨by simp, fun _ _ => ⟨by simp, ?_⟩⟩
        simp only [Bool.or_self, Bool.false_eq_true, if_false]
        rw [hmsg]
        intro hcontra
        have hlen := congrArg String.length hcontra
        rw [String.length_append] at hlen
        have h27 : ("Unsupported database type: " : String).length = 27 := rfl
        have h0 : ("" : String).length = 0 := rfl
        rw [h27, h0] at hlen
        omega
      | ok handle =>
        cases testOutcome with
        | true =>
          exact ⟨by simp [hft, hfc, hcr], fun _ _ =>
            ⟨by simp [hft, hfc, hcr], by simp [hft, hfc, hcr]⟩⟩
        | false =>
          exact ⟨by simp [hft, hfc, hcr], fun _ _ =>
            ⟨by simp [hft, hfc, hcr], by simp [hft, hfc, hcr]⟩⟩

/-- C9 witness: the theorem applied to the seeded store and a concrete
test request whose probe fails. -/
theorem c9_witness :
    (testRoute (initMemStorage none 0) (some "postgresql")
      (some "postgresql://localhost:5432/sample") false).1 = initMemStorage none 0 ∧
    (testRoute (initMemStorage none 0) (some "postgresql")
      (some "postgresql://localhost:5432/sample") false).2.success.isSome ∧
    (testRoute (initMemStorage none 0) (some "postgresql")
      (some "postgresql://localhost:5432/sample") false).2.message ≠ "" :=
  ⟨(c9_test_route_no_mutation (initMemStorage none 0) (some "postgresql")
      (some "postgresql://localhost:5432/sample") false).1,
   (c9_test_route_no_mutation (initMemStorage none 0) (some "postgresql")
      (some "postgresql://localhost:5432/sample") false).2 rfl rfl⟩

/-- C10: a freshly constructed store is seeded with one default PostgreSQL
configuration with id 1 and `isActive = true`, so `getActiveDatabaseConfig`
returns it (for any environment connection string), and no execute request
on the fresh store can reach the no-active-configuration response. -/
theorem c10_fresh_store_default_active :
    ∀ (envDatabaseUrl : Option String) (t₀ : Nat),
      getActiveDatabaseConfig (initMemStorage envDatabaseUrl t₀) =
        some { id := 1, name := "Default PostgreSQL", type := "postgresql",
               connectionString := envDatabaseUrl.getD "postgresql://localhost:5432/sample",
               isActive := true, createdAt := t₀ } ∧
      ∀ (query : String) (o : ExecOracle),
        (executeRoute (initMemStorage envDatabaseUrl t₀) query o).2.1 ≠
          ExecResponse.noActiveConfig := by
  intro envDatabaseUrl t₀
  refine ⟨rfl, ?_⟩
  intro query o
  unfold executeRoute
  cases hq : requestShapeValid query with
  | false => simp
  | true =>
    simp only [not_true, if_false, Bool.true_eq_false, ite_false]
    have hactive : getActiveDatabaseConfig (initMemStorage envDatabaseUrl t₀) =
        some { id := 1, name := "Default PostgreSQL", type := "postgresql",
               connectionString := envDatabaseUrl.getD "postgresql://localhost:5432/sample",
               isActive := true, createdAt := t₀ } := rfl
    rw [hactive]
    have hconn : createConnection "postgresql"
        (envDatabaseUrl.getD "postgresql://localhost:5432/sample") =
        Except.ok (BackendKind.postgresql,
          envDatabaseUrl.getD "postgresql://localhost:5432/sample") := rfl
    cases hgen : o.genOutcome with
    | error m => simp [hconn, hgen]
    | ok sqlResult =>
      cases hsch : o.schemaOutcome with
      | error m =>
        cases hex : o.execOutcome with
        | error m₂ => simp [hconn, hgen, hsch, hex, jsPromiseTruthy]
        | ok qr => simp [hconn, hgen, hsch, hex, jsPromiseTruthy]
      | ok schemaResult =>
        cases hex : o.execOutcome with
        | error m₂ => simp [hconn, hgen, hsch, hex, jsPromiseTruthy]
        | ok qr => simp [hconn, hgen, hsch, hex, jsPromiseTruthy]

/-- C10 witness: the theorem applied to an unset environment variable and
a concrete request. -/
theorem c10_witness :
    getActiveDatabaseConfig (initMemStorage none 0) =
      some { id := 1, name := "Default PostgreSQL", type := "postgresql",
             connectionString := "postgresql://localhost:5432/sample",
             isActive := true, createdAt := 0 } ∧
    (executeRoute (initMemStorage none 0) "Show all rows" demoOracle).2.1 ≠
      ExecResponse.noActiveConfig :=
  ⟨(c10_fresh_store_default_active none 0).1,
   (c10_fresh_store_default_active none 0).2 "Show all rows" demoOracle⟩
